import Mathlib

/-!
Shallow embedding of the `rundeck_calendar` repository:
`src/rundeck_calendar/__init__.py` (the `RundeckCalendar` class with its nested
`RundeckJobSchedule` normalizer and the `_get_rundeck_job_schedules` catalog
builder) and the summary renderer exercised by `src/rundeck_calendar/__main__.py`
and `src/tests/TestRundeckCalendar.py`.

Pure fragments of the Python become Lean functions; Python exceptions become an
`Except PyErr` result; the XML documents consumed by the builder become an
explicit element tree with lxml's access semantics (`find` returning an optional
child, `attrib[k]` raising `KeyError` when absent, `.text` optional).
-/

/-- Python exceptions raised by the translated code. `exception` models the bare
`raise Exception` of `RundeckJobSchedule.__init__` (line 66; no payload is
attached by the source), `keyError` a failed mapping subscript such as
`element.attrib['k']`, and `attributeError` an attribute lookup on an object
that lacks the attribute (in particular on `None`). -/
inductive PyErr where
  | exception
  | keyError
  | attributeError
  deriving DecidableEq, Repr

/-- Helper for `pySplitChar` and `specWhitespaceTokenCount`: walks the
character list, cutting at every character satisfying `p`, accumulating the
current piece in reverse; empty pieces are kept. -/
def splitByAux (p : Char → Bool) : List Char → List Char → List String
  | [], acc => [String.mk acc.reverse]
  | c :: cs, acc =>
    if p c then String.mk acc.reverse :: splitByAux p cs []
    else splitByAux p cs (c :: acc)

/-- Python `s.split(sep)` for a one-character separator, as used at
`cron_schedule.split(' ')` (src/rundeck_calendar/__init__.py:62): the string is
cut at every occurrence of `sep` and empty pieces are kept, so
`''.split(' ') == ['']` and `'a  b'.split(' ') == ['a', '', 'b']`. -/
def pySplitChar (sep : Char) (s : String) : List String :=
  splitByAux (fun c => c == sep) s.toList []

/-- The fields a `RundeckJobSchedule` instance carries
(src/rundeck_calendar/__init__.py:33-73). `uuid` and `name` receive
`job.find(..).text` in the builder, which is `None` for a text-less element,
hence `Option String`. `cron_schedule` is not stored by the constructor at all;
it is attached dynamically by `_get_rundeck_job_schedules` (line 172), hence
`Option String` with `none` meaning the attribute was never set. -/
structure RundeckJobSchedule where
  uuid : Option String
  name : Option String
  project : String
  second : String
  minute : String
  hour : String
  day_of_month : String
  month : String
  day_of_week : String
  year : String
  cron_schedule : Option String
  deriving DecidableEq, Repr

/-- `RundeckJobSchedule.__init__` (src/rundeck_calendar/__init__.py:33-73), the
schedule normalizer. With `cron_schedule is None` each structured field is its
supplied value when not `None`, else `'?'` (lines 53-60). Otherwise the string
is split on the space character; the source raises a bare `Exception` when the
token count differs from 7 and assigns the tokens positionally otherwise
(lines 61-73; the source writes the `!= 7` test first and raises in its then
branch, flipped here into the else branch of the `= 7` test). -/
def RundeckJobSchedule.init (uuid name : Option String) (project : String)
    (cron_schedule : Option String)
    (second minute hour day_of_month month day_of_week year : Option String) :
    Except PyErr RundeckJobSchedule :=
  match cron_schedule with
  | none =>
    .ok { uuid := uuid, name := name, project := project,
          second := second.getD "?", minute := minute.getD "?",
          hour := hour.getD "?", day_of_month := day_of_month.getD "?",
          month := month.getD "?", day_of_week := day_of_week.getD "?",
          year := year.getD "?", cron_schedule := none }
  | some cs =>
    let cron_sched_split := pySplitChar ' ' cs
    if h : cron_sched_split.length = 7 then
      .ok { uuid := uuid, name := name, project := project,
            second := cron_sched_split.get ⟨0, by omega⟩,
            minute := cron_sched_split.get ⟨1, by omega⟩,
            hour := cron_sched_split.get ⟨2, by omega⟩,
            day_of_month := cron_sched_split.get ⟨3, by omega⟩,
            month := cron_sched_split.get ⟨4, by omega⟩,
            day_of_week := cron_sched_split.get ⟨5, by omega⟩,
            year := cron_sched_split.get ⟨6, by omega⟩,
            cron_schedule := none }
    else
      .error .exception

/-- An XML element as the builder consumes it through lxml: a tag, an attribute
list (XML attribute values are always strings), child elements, and the
optional element text (`element.text` is `None` for a text-less element). -/
structure XmlElement where
  tag : String
  attrib : List (String × String)
  children : List XmlElement
  text : Option String

/-- lxml `element.find(t)`: the first direct child with tag `t`, or `None`. -/
def XmlElement.find (e : XmlElement) (t : String) : Option XmlElement :=
  e.children.find? (fun c => c.tag == t)

/-- lxml `element.attrib[k]`: the attribute value when present, otherwise a
`KeyError`. A successful subscript always yields a string, never `None`. -/
def XmlElement.attribGet (e : XmlElement) (k : String) : Except PyErr String :=
  match e.attrib.find? (fun kv => kv.1 == k) with
  | some kv => .ok kv.2
  | none => .error .keyError

/-- Python `parent.find(t).text`: an `AttributeError` when `find` returned
`None` (`None.text`), otherwise the element's optional text. -/
def elementText : Option XmlElement → Except PyErr (Option String)
  | none => .error .attributeError
  | some e => .ok e.text

/-- Python `sched.find(child).attrib[attr]`: an `AttributeError` when the child
is absent (`None.attrib`), a `KeyError` when the child exists but lacks the
attribute, otherwise the attribute value. -/
def findAttrib (sched : XmlElement) (child attr : String) : Except PyErr String :=
  match sched.find child with
  | none => .error .attributeError
  | some c => c.attribGet attr

/-- One `try: field = sched.find(child).attrib[attr] / except (AttributeError,
KeyError): pass` block of the structured extraction
(src/rundeck_calendar/__init__.py:179-206): on either error the field keeps its
current value; `findAttrib` produces exactly those two error kinds, so the
catch-all here catches no more than the source does. -/
def trySetField (cur : String) (v : Except PyErr String) : String :=
  match v with
  | .ok s => s
  | .error _ => cur

/-- The Python test `x is not None` applied to the result of a successful lxml
`attrib[...]` subscript, which always yields a string and never `None`
(a missing attribute raises `KeyError` instead, before this test runs). -/
def pyIsNotNone (_v : String) : Bool :=
  true

/-- The structured-form field extraction of `_get_rundeck_job_schedules`
(src/rundeck_calendar/__init__.py:179-211), mutating the freshly constructed
record `rec0`: each of seconds, minutes, hour, month, weekday day and year is
assigned inside a `try ... except (AttributeError, KeyError): pass` block;
`day_of_month` is first set to `'?'` unconditionally (line 192), and last,
line 207 reads `sched.find('month').attrib['day']` outside any try block, so a
missing month element raises an uncaught `AttributeError` and a month element
without a day attribute an uncaught `KeyError`. Line 209 then repeats the same
(pure) lookup inside `try ... except KeyError`; since it just succeeded, the
assignment takes place. -/
def structuredExtract (sched : XmlElement) (rec0 : RundeckJobSchedule) :
    Except PyErr RundeckJobSchedule :=
  let r1 := { rec0 with second := trySetField rec0.second (findAttrib sched "time" "seconds") }
  let r2 := { r1 with minute := trySetField r1.minute (findAttrib sched "time" "minutes") }
  let r3 := { r2 with hour := trySetField r2.hour (findAttrib sched "time" "hour") }
  let r4 := { r3 with day_of_month := "?" }
  let r5 := { r4 with month := trySetField r4.month (findAttrib sched "month" "month") }
  let r6 := { r5 with day_of_week := trySetField r5.day_of_week (findAttrib sched "weekday" "day") }
  let r7 := { r6 with year := trySetField r6.year (findAttrib sched "year" "year") }
  match findAttrib sched "month" "day" with
  | .error e => .error e
  | .ok day =>
    if pyIsNotNone day then .ok { r7 with day_of_month := day }
    else .ok r7

/-- Lines 160-163 of src/rundeck_calendar/__init__.py: a job is skipped when it
has a `scheduleEnabled` element whose text equals `'false'`; a job without the
element falls through to schedule processing. -/
def jobDisabled (job : XmlElement) : Bool :=
  match job.find "scheduleEnabled" with
  | some se => se.text == some "false"
  | none => false

/-- Lines 164-213 of src/rundeck_calendar/__init__.py, the per-job schedule
handling after the disabled-job check: a job without a `schedule` element
contributes nothing; otherwise line 167 subscripts `sched.attrib['crontab']`
outside any try block, so a schedule without a crontab attribute raises an
uncaught `KeyError`. When the subscript succeeds its value is a string, the
`is not None` test holds, and the crontab branch constructs the record from
`job.find('id').text` and `job.find('name').text` alone (all seven fields
default to `'?'`) and then attaches the raw string as the `cron_schedule`
attribute (line 172, whose `try` wraps a pure lookup that already succeeded).
The structured branch (lines 175-211) is reachable only if the subscript
returned `None`, which lxml never does. -/
def processScheduledJob (project_name : String) (job : XmlElement) :
    Except PyErr (Option RundeckJobSchedule) :=
  match job.find "schedule" with
  | none => .ok none
  | some sched =>
    match sched.attribGet "crontab" with
    | .error e => .error e
    | .ok crontab =>
      if pyIsNotNone crontab then
        match elementText (job.find "id") with
        | .error e => .error e
        | .ok uuid =>
          match elementText (job.find "name") with
          | .error e => .error e
          | .ok nm =>
            match RundeckJobSchedule.init uuid nm project_name
                none none none none none none none none with
            | .error e => .error e
            | .ok base => .ok (some { base with cron_schedule := some crontab })
      else
        match elementText (job.find "id") with
        | .error e => .error e
        | .ok uuid =>
          match elementText (job.find "name") with
          | .error e => .error e
          | .ok nm =>
            match RundeckJobSchedule.init uuid nm project_name
                none none none none none none none none with
            | .error e => .error e
            | .ok base =>
              match structuredExtract sched base with
              | .error e => .error e
              | .ok r => .ok (some r)

/-- One iteration of the job loop of `_get_rundeck_job_schedules`
(src/rundeck_calendar/__init__.py:159-213): `.ok none` means the job was
skipped (its `continue`), `.ok (some r)` that record `r` is appended, and
`.error e` an exception propagating out of the loop. -/
def processJob (project_name : String) (job : XmlElement) :
    Except PyErr (Option RundeckJobSchedule) :=
  if jobDisabled job then .ok none
  else processScheduledJob project_name job

/-- The job loop of `_get_rundeck_job_schedules` over one project's exported
job list, accumulating records in order; an exception from any job aborts the
whole loop, as an uncaught Python exception would. -/
def processJobs (project_name : String) :
    List XmlElement → Except PyErr (List RundeckJobSchedule)
  | [] => .ok []
  | job :: rest =>
    match processJob project_name job with
    | .error e => .error e
    | .ok none => processJobs project_name rest
    | .ok (some r) =>
      match processJobs project_name rest with
      | .error e => .error e
      | .ok rs => .ok (r :: rs)

/-- The instance attributes assigned by `RundeckCalendar.__init__`
(src/rundeck_calendar/__init__.py:97-112), were it to complete. -/
structure RundeckCalendarState where
  host : String
  port : String
  api_token : String
  ssl_enabled : Bool
  project_names : List String
  rundeck_jobs : List RundeckJobSchedule
  deriving DecidableEq, Repr

/-- The attribute names defined in the `RundeckCalendar` class body
(src/rundeck_calendar/__init__.py:23-214): the two nested classes and the three
methods. Instance attribute lookup for a method falls back to these class
attributes. -/
def rundeckCalendarClassAttrs : List String :=
  ["RundeckJobSchedule", "RUNDECKAPIError", "__init__", "_get_project_names",
   "_get_rundeck_job_schedules"]

/-- Python attribute lookup `self.n` for a method of `RundeckCalendar`: an
`AttributeError` when `n` is not among the class attributes. -/
def classAttrLookup (n : String) : Except PyErr Unit :=
  if n ∈ rundeckCalendarClassAttrs then .ok () else .error .attributeError

/-- `RundeckCalendar.__init__` (src/rundeck_calendar/__init__.py:97-112). The
network call made by `_get_project_names` (line 111) is the collaborator
boundary, so its outcome enters as the `projectListing` parameter. Line 112
then evaluates `self._get_rundeck_jobs()`, whose attribute lookup must resolve
before any call happens. That lookup always fails (`_get_rundeck_jobs` is
defined nowhere in the class), so the final state is never built; the `[]`
below stands for the value that is never computed. -/
def RundeckCalendar.init (host port api_token : String) (ssl_enabled : Bool)
    (projectListing : Except PyErr (List String)) :
    Except PyErr RundeckCalendarState :=
  match projectListing with
  | .error e => .error e
  | .ok project_names =>
    match classAttrLookup "_get_rundeck_jobs" with
    | .error e => .error e
    | .ok _ =>
      .ok { host := host, port := port, api_token := api_token,
            ssl_enabled := ssl_enabled, project_names := project_names,
            rundeck_jobs := [] }

/-- Modelled from the spec: `RundeckCalendar.get_schedule_summary` is invoked
by `src/rundeck_calendar/__main__.py:175` and exercised by
`src/tests/TestRundeckCalendar.py:240-251`, but the method itself is not
defined anywhere under the repository sources. Following spec sections 4.4 and
6: one header line naming the seven columns, then one line per Schedule Record
in catalog order, the record prefixed by `project:` then `name:`, the seven
fields joined by single spaces, and a newline after every line including the
header. The source record type carries no group, so no `group/` segment is
rendered; `name` is required by the spec, so a missing text renders as the
empty string. -/
def get_schedule_summary (records : List RundeckJobSchedule) : String :=
  "project:job: second minute hour day_of_month month day_of_week year\n" ++
    String.join (records.map (fun r =>
      r.project ++ ":" ++ r.name.getD "" ++ ": " ++ r.second ++ " " ++
        r.minute ++ " " ++ r.hour ++ " " ++ r.day_of_month ++ " " ++ r.month ++
        " " ++ r.day_of_week ++ " " ++ r.year ++ "\n"))

/-- Spec-side definition following the spec's words "Split the input string on
whitespace" (spec section 4.2 step 1): the number of whitespace-separated
tokens, i.e. Python `len(s.split())`, where runs of whitespace count as one
separator and leading or trailing whitespace yields no token — cutting at
every whitespace character and discarding empty pieces yields exactly those
tokens. Used only to compare the spec's wording with the source's
`split(' ')`. -/
def specWhitespaceTokenCount (s : String) : Nat :=
  ((splitByAux Char.isWhitespace s.toList []).filter (fun t => !t.isEmpty)).length

/-- The `<month month='*'/>` selector of the repository's test job
`test_job_1` (src/tests/TestRundeckCalendar.py:157): no day attribute. -/
def monthNoDay : XmlElement :=
  { tag := "month", attrib := [("month", "*")], children := [], text := none }

/-- A month selector carrying a day attribute. -/
def monthWithDay : XmlElement :=
  { tag := "month", attrib := [("month", "*"), ("day", "15")], children := [], text := none }

/-- The `<time hour='12' minute='45' seconds='0'/>` element of the test job. -/
def timeElem : XmlElement :=
  { tag := "time", attrib := [("hour", "12"), ("minute", "45"), ("seconds", "0")],
    children := [], text := none }

/-- The `<weekday day='2-6'/>` element of the test job. -/
def weekdayElem : XmlElement :=
  { tag := "weekday", attrib := [("day", "2-6")], children := [], text := none }

/-- The `<year year='*'/>` element of the test job. -/
def yearElem : XmlElement :=
  { tag := "year", attrib := [("year", "*")], children := [], text := none }

/-- The structured `<schedule>` element of the repository's test job
`test_job_1` (src/tests/TestRundeckCalendar.py:156-161): no crontab attribute,
no day attribute on the month selector. -/
def schedStructured : XmlElement :=
  { tag := "schedule", attrib := [],
    children := [monthNoDay, timeElem, weekdayElem, yearElem], text := none }

/-- A structured `<schedule>` element whose month selector carries a day
attribute. -/
def schedWithDay : XmlElement :=
  { tag := "schedule", attrib := [],
    children := [monthWithDay, timeElem, weekdayElem, yearElem], text := none }

/-- A `<schedule>` element in crontab form: the crontab attribute holds the
spec's scenario string. -/
def schedCrontab : XmlElement :=
  { tag := "schedule", attrib := [("crontab", "0 45 12 ? * 2-6 *")],
    children := [], text := none }

/-- The `<id>` element of the test job. -/
def idElem : XmlElement :=
  { tag := "id", attrib := [], children := [],
    text := some "63144201-4c22-4468-92c9-9e56efd530fa" }

/-- The `<name>` element of the test job. -/
def nameElem : XmlElement :=
  { tag := "name", attrib := [], children := [], text := some "test_job_1" }

/-- A `<scheduleEnabled>true</scheduleEnabled>` element. -/
def schedEnabledTrue : XmlElement :=
  { tag := "scheduleEnabled", attrib := [], children := [], text := some "true" }

/-- A `<scheduleEnabled>false</scheduleEnabled>` element. -/
def schedEnabledFalse : XmlElement :=
  { tag := "scheduleEnabled", attrib := [], children := [], text := some "false" }

/-- The repository's test job `test_job_1` as the builder sees it: enabled,
with the structured `<schedule>` element and no crontab attribute. -/
def jobStructured : XmlElement :=
  { tag := "job", attrib := [],
    children := [idElem, nameElem, schedStructured, schedEnabledTrue], text := none }

/-- A job whose scheduling is explicitly disabled, like the repository's test
job `test_job_2` (src/tests/TestRundeckCalendar.py:202). -/
def jobSchedulingOff : XmlElement :=
  { tag := "job", attrib := [],
    children := [idElem, nameElem, schedEnabledFalse], text := none }

/-- A job carrying a crontab-form schedule and no `scheduleEnabled` element. -/
def jobCrontab : XmlElement :=
  { tag := "job", attrib := [], children := [idElem, nameElem, schedCrontab],
    text := none }

/-- The record `RundeckJobSchedule(id, name, 'TestProject')` as the builder
constructs it before structured extraction: identity from the test job, all
seven fields defaulted to `'?'`, no `cron_schedule` attribute. -/
def baseRecord : RundeckJobSchedule :=
  { uuid := some "63144201-4c22-4468-92c9-9e56efd530fa", name := some "test_job_1",
    project := "TestProject", second := "?", minute := "?", hour := "?",
    day_of_month := "?", month := "?", day_of_week := "?", year := "?",
    cron_schedule := none }

/-- The catalog record of the spec's rendering scenario: project `TestProject`,
job `test_job_1`, fields `0 45 12 ? * 2-6 *`. -/
def summaryRecord : RundeckJobSchedule :=
  { uuid := some "63144201-4c22-4468-92c9-9e56efd530fa", name := some "test_job_1",
    project := "TestProject", second := "0", minute := "45", hour := "12",
    day_of_month := "?", month := "*", day_of_week := "2-6", year := "*",
    cron_schedule := none }

/-- Claim C1: for every crontab-form input string that splits (under the
source's `split(' ')`) into exactly 7 tokens, the normalizer assigns the tokens
positionally to second, minute, hour, day_of_month, month, day_of_week, year,
whatever the tokens contain and whatever structured field values are also
supplied to the constructor. -/
theorem crontab_seven_tokens_assigned_positionally
    (u n : Option String) (p cs : String)
    (s2 mi h dm mo dw y : Option String) (a b c d e f g : String)
    (hsplit : pySplitChar ' ' cs = [a, b, c, d, e, f, g]) :
    RundeckJobSchedule.init u n p (some cs) s2 mi h dm mo dw y =
      .ok { uuid := u, name := n, project := p, second := a, minute := b,
            hour := c, day_of_month := d, month := e, day_of_week := f,
            year := g, cron_schedule := none } := by
  simp [RundeckJobSchedule.init, hsplit]

/-- Witness for C1: the spec's scenario string `0 45 12 ? * 2-6 *`, with two
structured values also supplied and ignored. -/
theorem crontab_seven_tokens_assigned_positionally_witness :
    pySplitChar ' ' "0 45 12 ? * 2-6 *" = ["0", "45", "12", "?", "*", "2-6", "*"] ∧
    RundeckJobSchedule.init (some "u1") (some "job1") "P1"
        (some "0 45 12 ? * 2-6 *") (some "9") (some "8") none none none none none =
      .ok { uuid := some "u1", name := some "job1", project := "P1",
            second := "0", minute := "45", hour := "12", day_of_month := "?",
            month := "*", day_of_week := "2-6", year := "*",
            cron_schedule := none } :=
  ⟨by decide,
   crontab_seven_tokens_assigned_positionally (some "u1") (some "job1") "P1"
     "0 45 12 ? * 2-6 *" (some "9") (some "8") none none none none none
     "0" "45" "12" "?" "*" "2-6" "*" (by decide)⟩

/-- Counterexample to claim C2 as stated: the claim quantifies over strings
that do not split *on whitespace* into exactly 7 tokens, but the source splits
on the single space character only. The string `a<TAB>b c d e f g h` consists
of 8 whitespace-separated tokens, yet `split(' ')` yields 7 pieces, so the
normalizer succeeds and even stores the tab-joined pair as one field instead
of failing. -/
theorem crontab_whitespace_split_counterexample :
    specWhitespaceTokenCount "a\tb c d e f g h" = 8 ∧
    RundeckJobSchedule.init none none "P1" (some "a\tb c d e f g h")
        none none none none none none none =
      .ok { uuid := none, name := none, project := "P1", second := "a\tb",
            minute := "c", hour := "d", day_of_month := "e", month := "f",
            day_of_week := "g", year := "h", cron_schedule := none } := by
  constructor
  · decide
  · rfl

/-- Claim C2 as amended: for every crontab-form input string that does not
split on the single space character into exactly 7 pieces, the normalizer
fails — with the source's bare `Exception`, which carries no payload (the
offending string is only logged) — and produces no Schedule Record. -/
theorem crontab_bad_token_count_fails
    (u n : Option String) (p cs : String)
    (s2 mi h dm mo dw y : Option String)
    (hlen : (pySplitChar ' ' cs).length ≠ 7) :
    RundeckJobSchedule.init u n p (some cs) s2 mi h dm mo dw y =
      .error .exception := by
  simp [RundeckJobSchedule.init, hlen]

/-- Witness for the amended C2: a three-token string fails. -/
theorem crontab_bad_token_count_fails_witness :
    (pySplitChar ' ' "0 45 12").length ≠ 7 ∧
    RundeckJobSchedule.init none none "P1" (some "0 45 12")
        none none none none none none none = .error .exception :=
  ⟨by decide,
   crontab_bad_token_count_fails none none "P1" "0 45 12"
     none none none none none none none (by decide)⟩

/-- Claim C4: every record the normalizer constructs has all seven fields
populated; in structured form a field with no supplied value is `'?'` and a
supplied value is stored as given, so in particular zero supplied optional
fields yield a record whose seven fields all equal `'?'`. -/
theorem structured_fields_always_populated :
    (∀ (u n : Option String) (p : String),
      RundeckJobSchedule.init u n p none none none none none none none none =
        .ok { uuid := u, name := n, project := p, second := "?", minute := "?",
              hour := "?", day_of_month := "?", month := "?",
              day_of_week := "?", year := "?", cron_schedule := none }) ∧
    (∀ (u n : Option String) (p : String) (s2 mi h dm mo dw y : Option String),
      ∃ r, RundeckJobSchedule.init u n p none s2 mi h dm mo dw y = .ok r ∧
        r.second = s2.getD "?" ∧ r.minute = mi.getD "?" ∧ r.hour = h.getD "?" ∧
        r.day_of_month = dm.getD "?" ∧ r.month = mo.getD "?" ∧
        r.day_of_week = dw.getD "?" ∧ r.year = y.getD "?") := by
  constructor
  · intro u n p
    rfl
  · intro u n p s2 mi h dm mo dw y
    exact ⟨_, rfl, rfl, rfl, rfl, rfl, rfl, rfl, rfl⟩

/-- Claim C8: normalization is deterministic — the translated normalizer reads
nothing but its arguments (the source touches no state besides a log handle),
so two invocations on the same Raw Schedule Input, crontab-form or
structured-form, produce the same Schedule Record or the same error. -/
theorem normalization_deterministic
    (u n : Option String) (p : String)
    (cs s2 mi h dm mo dw y : Option String) :
    RundeckJobSchedule.init u n p cs s2 mi h dm mo dw y =
      RundeckJobSchedule.init u n p cs s2 mi h dm mo dw y := rfl

/-- Claim C3, settled against the structured-extraction code
(src/rundeck_calendar/__init__.py:191-211). First conjunct: on the repository's
own test schedule, whose month selector has no day attribute, the extraction
raises an uncaught `KeyError` at `sched.find('month').attrib['day']` instead
of leaving `day_of_month = '?'` — the code contradicts the test, which expects
`?` in that position. Second conjunct: when the month selector does carry a day
attribute, the extraction succeeds and the record's `day_of_month` equals that
attribute, assigned after all other fields. -/
theorem day_of_month_from_month_day_attribute :
    structuredExtract schedStructured baseRecord = .error .keyError ∧
    (∀ (sched : XmlElement) (rec0 : RundeckJobSchedule)
        (monthEl : XmlElement) (d : String),
      sched.find "month" = some monthEl → monthEl.attribGet "day" = .ok d →
      ∃ r, structuredExtract sched rec0 = .ok r ∧ r.day_of_month = d) := by
  constructor
  · rfl
  · intro sched rec0 monthEl d hfind hday
    simp only [structuredExtract, findAttrib, hfind, hday, pyIsNotNone, if_true]
    exact ⟨_, rfl, rfl⟩

/-- Witness for C3's second conjunct: a month selector with `day='15'`. -/
theorem day_of_month_from_month_day_attribute_witness :
    ∃ r, structuredExtract schedWithDay baseRecord = .ok r ∧
      r.day_of_month = "15" :=
  day_of_month_from_month_day_attribute.2 schedWithDay baseRecord
    monthWithDay "15" rfl rfl

/-- Claim C5, settled against the code: the builder does use the crontab branch
whenever the schedule carries a crontab attribute (see
`crontab_branch_record_all_wildcards`), but when no crontab attribute is
present it does not fall back to structured-field extraction — line 167's
`sched.attrib['crontab']` raises an uncaught `KeyError`. Evaluated here on the
repository's own test job `test_job_1`, whose structured schedule the tests
expect to be extracted to `0 45 12 ? * 2-6 *`. -/
theorem missing_crontab_attribute_raises_keyerror :
    processJob "TestProject" jobStructured = .error .keyError := rfl

/-- Claim C6: a job whose `scheduleEnabled` text is `'false'` is skipped
entirely — removing it from the job list leaves the builder's outcome (records
and errors alike) unchanged — and a job with no `scheduleEnabled` element at
all goes through the same schedule processing as any enabled job. -/
theorem disabled_job_contributes_nothing :
    (∀ (p : String) (pre post : List XmlElement) (job se : XmlElement),
      job.find "scheduleEnabled" = some se → se.text = some "false" →
      processJobs p (pre ++ job :: post) = processJobs p (pre ++ post)) ∧
    (∀ (p : String) (job : XmlElement), job.find "scheduleEnabled" = none →
      processJob p job = processScheduledJob p job) := by
  constructor
  · intro p pre post job se hfind htext
    induction pre with
    | nil =>
      have hdis : jobDisabled job = true := by
        simp [jobDisabled, hfind, htext]
      simp [processJobs, processJob, hdis]
    | cons q qs ih =>
      cases hq : processJob p q with
      | error e => simp [processJobs, hq]
      | ok o =>
        cases o with
        | none => simpa [processJobs, hq] using ih
        | some r => simp [processJobs, hq, ih]
  · intro p job hfind
    simp [processJob, jobDisabled, hfind]

/-- Witness for C6: dropping the disabled test job `test_job_2` from a list
containing it changes nothing, and the crontab job (which has no
`scheduleEnabled` element) is processed as enabled. -/
theorem disabled_job_contributes_nothing_witness :
    processJobs "TestProject" ([jobCrontab] ++ jobSchedulingOff :: []) =
      processJobs "TestProject" ([jobCrontab] ++ []) ∧
    processJob "TestProject" jobCrontab =
      processScheduledJob "TestProject" jobCrontab :=
  ⟨disabled_job_contributes_nothing.1 "TestProject" [jobCrontab] []
      jobSchedulingOff schedEnabledFalse rfl rfl,
   disabled_job_contributes_nothing.2 "TestProject" jobCrontab rfl⟩

/-- Claim C10: for every processed job whose schedule carries a crontab
attribute (and, per the collaborator interface, an id and a name element), the
builder produces a record whose seven recurrence fields are all `'?'`: the
crontab string is attached to the already-constructed record as a plain
`cron_schedule` attribute and is never parsed into the fields. -/
theorem crontab_branch_record_all_wildcards
    (p : String) (job sched : XmlElement) (ct : String) (u n : Option String)
    (hdis : jobDisabled job = false)
    (hsched : job.find "schedule" = some sched)
    (hct : sched.attribGet "crontab" = .ok ct)
    (hid : elementText (job.find "id") = .ok u)
    (hnm : elementText (job.find "name") = .ok n) :
    processJob p job =
      .ok (some { uuid := u, name := n, project := p, second := "?",
                  minute := "?", hour := "?", day_of_month := "?",
                  month := "?", day_of_week := "?", year := "?",
                  cron_schedule := some ct }) := by
  simp [processJob, hdis, processScheduledJob, hsched, hct, pyIsNotNone,
    hid, hnm, RundeckJobSchedule.init]

/-- Witness for C10: the crontab-form job fixture yields the all-wildcard
record carrying `0 45 12 ? * 2-6 *` as its `cron_schedule` attribute. -/
theorem crontab_branch_record_all_wildcards_witness :
    processJob "TestProject" jobCrontab =
      .ok (some { uuid := some "63144201-4c22-4468-92c9-9e56efd530fa",
                  name := some "test_job_1", project := "TestProject",
                  second := "?", minute := "?", hour := "?",
                  day_of_month := "?", month := "?", day_of_week := "?",
                  year := "?", cron_schedule := some "0 45 12 ? * 2-6 *" }) :=
  crontab_branch_record_all_wildcards "TestProject" jobCrontab schedCrontab
    "0 45 12 ? * 2-6 *" (some "63144201-4c22-4468-92c9-9e56efd530fa")
    (some "test_job_1") rfl rfl rfl rfl rfl

/-- Claim C9: whenever project listing succeeds, the `RundeckCalendar`
constructor fails with an `AttributeError` at `self._get_rundeck_jobs()`
(src/rundeck_calendar/__init__.py:112) — no such method exists in the class —
and for every listing outcome whatsoever the constructor ends in some error,
never in a constructed calendar object. -/
theorem calendar_constructor_attribute_error :
    (∀ (host port tok : String) (ssl : Bool) (names : List String),
      RundeckCalendar.init host port tok ssl (.ok names) =
        .error .attributeError) ∧
    (∀ (host port tok : String) (ssl : Bool)
        (resp : Except PyErr (List String)),
      ∃ e, RundeckCalendar.init host port tok ssl resp = .error e) := by
  constructor
  · intro host port tok ssl names
    rfl
  · intro host port tok ssl resp
    cases resp with
    | error e => exact ⟨e, rfl⟩
    | ok names => exact ⟨.attributeError, rfl⟩

/-- Claim C7 (the renderer itself is absent from the sources and is modelled
from the spec, see `get_schedule_summary`): on a catalog of the single record
for project `TestProject`, job `test_job_1`, no group, fields
`0 45 12 ? * 2-6 *`, the summary is exactly the header line naming the seven
columns followed by the one record line, each line ending in a newline. -/
theorem schedule_summary_rendering_scenario :
    get_schedule_summary [summaryRecord] =
      "project:job: second minute hour day_of_month month day_of_week year\nTestProject:test_job_1: 0 45 12 ? * 2-6 *\n" := rfl
